import Mathlib

/-!
Verification development for the sdmx-query-tool repository.

The definitions below are shallow embeddings of the Python sources:
  * `sdmx_query_tool/datashelf.py` (static endpoint/option registries),
  * `sdmx_query_tool/sources/ecb.py`, `sources/insee.py`, `sources/oecd.py`
    (source clients: period normalisation, query building, catalog
    validation, and the XML tabular extractors).
Python strings are Lean `String`s, Python dicts in document order are
association lists, `datetime.date` values are the `Date` structure, raised
exceptions are `Except.error` values carrying the exception text, and
pandas DataFrames are the `DataFrame` structure below.
-/

deriving instance DecidableEq for Except

/-! ## Python string primitives -/

/-- Python `str.split(sep)` worker over the character list: `acc` holds the
current (reversed) segment. -/
def pySplitAux (sep : Char) : List Char → List Char → List (List Char)
  | [], acc => [acc.reverse]
  | c :: rest, acc =>
    if c = sep then acc.reverse :: pySplitAux sep rest []
    else pySplitAux sep rest (c :: acc)

/-- Python `s.split(sep)` for a one-character separator (the sources only
split on `"-"`). -/
def pySplit (sep : Char) (s : String) : List String :=
  (pySplitAux sep s.data []).map String.mk

/-- Every character is an ASCII digit. -/
def isDigitStringL (l : List Char) : Bool := l.all Char.isDigit

/-- Numeric value of a digit string. -/
def digitsValL (l : List Char) : Nat := l.foldl (fun a c => 10 * a + (c.toNat - 48)) 0

/-- Python `int(s)` restricted to plain ASCII digit strings; the conversions
performed by the sources only ever receive such inputs, and a non-digit
input raises `ValueError`, modelled as `none`. -/
def pyInt? (s : String) : Option Nat :=
  if !s.data.isEmpty && isDigitStringL s.data then some (digitsValL s.data) else none

/-- Python `str.upper()`; SDMX identifiers are ASCII, where it agrees with
`Char.toUpper`. -/
def pyUpper (s : String) : String := ⟨s.data.map Char.toUpper⟩

/-- Python `c in s` for a single character. -/
def strContains (s : String) (c : Char) : Bool := s.data.any fun x => x == c

/-- Python dict lookup on an insertion-ordered association list
(`d.get(k)` / `k in d`). -/
def lookupStr (k : String) : List (String × String) → Option String
  | [] => none
  | (a, b) :: rest => if k = a then some b else lookupStr k rest

/-- Python `sep.join(parts)`. -/
def joinSep (sep : String) : List String → String
  | [] => ""
  | x :: xs =>
    match xs with
    | [] => x
    | _ :: _ => x ++ sep ++ joinSep sep xs

/-- Worker for `str.format`: replace the first `{}` with the value. -/
def fmtAux (v : List Char) : List Char → List Char
  | '{' :: '}' :: rest => v ++ rest
  | c :: rest => c :: fmtAux v rest
  | [] => []

/-- Python `template.format(value)` for the single-placeholder templates of
the registries (a template without `{}` is returned unchanged, as in
Python, where surplus positional arguments are ignored). -/
def pyFormat1 (template value : String) : String := ⟨fmtAux value.data template.data⟩

/-- Python truthiness of `d.get(k)` for a string-valued dict: `None` and
the empty string are falsy. -/
def truthyOpt : Option String → Bool
  | none => false
  | some s => !(s.isEmpty)

/-! ## Calendar arithmetic (datetime.date / calendar.monthrange) -/

/-- A `datetime.date` value. -/
structure Date where
  year : Nat
  month : Nat
  day : Nat
deriving DecidableEq, Repr

/-- Embeds `calendar.isleap`. -/
def isLeap (y : Nat) : Bool := (y % 4 == 0 && y % 100 != 0) || y % 400 == 0

/-- Embeds `calendar.monthrange(y, m)[1]`: number of days of month `m` of year `y`
(months outside 1..12 never reach this function; the callers guard them). -/
def daysInMonth (y : Nat) (m : Nat) : Nat :=
  match m with
  | 1 => 31 | 2 => if isLeap y then 29 else 28 | 3 => 31 | 4 => 30 | 5 => 31
  | 6 => 30 | 7 => 31 | 8 => 31 | 9 => 30 | 10 => 31 | 11 => 30 | 12 => 31
  | _ => 0

/-- Days in year `y`. -/
def daysInYear (y : Nat) : Nat := if isLeap y then 366 else 365

/-- Days in the non-leap prefix of the year before month `m`. -/
def daysBeforeMonth (m : Nat) : Nat :=
  match m with
  | 1 => 0 | 2 => 31 | 3 => 59 | 4 => 90 | 5 => 120 | 6 => 151 | 7 => 181
  | 8 => 212 | 9 => 243 | 10 => 273 | 11 => 304 | 12 => 334
  | _ => 0

/-- Days before January 1 of year `y` in the proleptic Gregorian calendar
(`date(y, 1, 1).toordinal() - 1`). -/
def daysBeforeYear (y : Nat) : Nat :=
  365 * (y - 1) + (y - 1) / 4 - (y - 1) / 100 + (y - 1) / 400

/-- Embeds `date.toordinal()`: day count with 0001-01-01 ↦ 1. -/
def toOrdinal (d : Date) : Nat :=
  daysBeforeYear d.year + daysBeforeMonth d.month
    + (if d.month > 2 && isLeap d.year then 1 else 0) + d.day

/-- Embeds `date.weekday()`: 0 = Monday … 6 = Sunday (0001-01-01 is a Monday). -/
def weekdayMon0 (d : Date) : Nat := (toOrdinal d + 6) % 7

/-- Turn a day-of-year (1-based, already known to fit in year `y`) into a
date by walking the months; the fuel of 11 suffices for 12 months. -/
def doyGo (y : Nat) : Nat → Nat → Nat → Date
  | 0, m, j => ⟨y, m, j⟩
  | fuel + 1, m, j =>
    if j ≤ daysInMonth y m then ⟨y, m, j⟩ else doyGo y fuel (m + 1) (j - daysInMonth y m)

/-- Date of day-of-year `j` (1-based) of year `y`. -/
def dayOfYearToDate (y j : Nat) : Date := doyGo y 11 1 j

/-- Date of the (possibly non-positive or overflowing) day-of-year `j` of
year `y`: the date arithmetic of
`date.fromordinal(date(y,1,1).toordinal() + j - 1)` together with
strptime's explicit `julian <= 0` year borrow.  The `%W` computation only
produces `-5 ≤ j ≤ 371`, for which one borrow/carry step is exact; its
caller `strptimeYWw` first performs `fromordinal`'s range check (ordinals
1 to 3652059, i.e. 0001-01-01 to 9999-12-31), so this function is only
reached on ordinals `datetime.date` can represent. -/
def dateFromYearDoy (y : Nat) (j : Int) : Date :=
  if j ≤ 0 then dayOfYearToDate (y - 1) (j + daysInYear (y - 1)).toNat
  else if j > daysInYear y then dayOfYearToDate (y + 1) (j - daysInYear y).toNat
  else dayOfYearToDate y j.toNat

/-! ## Period normalizer (shared by ecb.py / insee.py / oecd.py) -/

/-- Embedding of `dateutil.parser.parse` on a year-first dashed date string
`YYYY-M(M)-D(D)`, the only shape the period conversion ever builds or
forwards; its other heuristics are unreachable here and collapse to a
parse error. -/
def pyParseYMD (ys ms ds : String) : Except String Date :=
  if isDigitStringL ys.data && ys.length == 4
      && isDigitStringL ms.data && (ms.length == 1 || ms.length == 2)
      && isDigitStringL ds.data && (ds.length == 1 || ds.length == 2) then
    if 1 ≤ digitsValL ys.data ∧ 1 ≤ digitsValL ms.data ∧ digitsValL ms.data ≤ 12
        ∧ 1 ≤ digitsValL ds.data
        ∧ digitsValL ds.data ≤ daysInMonth (digitsValL ys.data) (digitsValL ms.data) then
      .ok ⟨digitsValL ys.data, digitsValL ms.data, digitsValL ds.data⟩
    else .error "ValueError: day is out of range for month"
  else .error "ValueError: Unknown string format"

/-- Embeds `dateutil.parser.parse` as used by the period conversion: split on the
dashes and read the three components. -/
def pyParseDate (s : String) : Except String Date :=
  match pySplit '-' s with
  | [ys, ms, ds] => pyParseYMD ys ms ds
  | _ => .error "ValueError: Unknown string format"

/-- The `date_suffixes` table of `__format_two_parts_date`. -/
def dateSuffixes : List (String × String) :=
  [("S1", "-06-30"), ("S2", "-12-31"), ("Q1", "-03-31"),
   ("Q2", "-06-30"), ("Q3", "-09-30"), ("Q4", "-12-31")]

/-- Embeds `datetime.strptime(year ++ "-" ++ tail ++ "-1", "%Y-W%W-%w")`:
`%Y` takes exactly four digits, the literal `W` must follow the dash, `%W`
takes one or two digits valued at most 53 (weeks start on Monday, the days
before the first Monday form week 0), `%w` is the appended `1` (Monday).
The resulting day-of-year is `_calc_julian_from_U_or_W`, with strptime's
borrow into the previous year for week 0 handled by `dateFromYearDoy`.
The result is built by `date.fromordinal`, which raises `ValueError`
outside the `datetime.date` range — ordinals 1 (`date.min`, 0001-01-01)
to 3652059 (`date.max.toordinal()`, 9999-12-31); this also covers the
`ValueError` that `date(year, 1, 1)` itself raises after the week-0
borrow reaches year 0. -/
def strptimeYWw (year date_tail : String) : Except String Date :=
  if date_tail.data.head? == some 'W'
      && isDigitStringL year.data && year.length == 4
      && isDigitStringL date_tail.data.tail
      && (date_tail.data.tail.length == 1 || date_tail.data.tail.length == 2) then
    if 1 ≤ digitsValL year.data ∧ digitsValL date_tail.data.tail ≤ 53 then
      let w := digitsValL date_tail.data.tail
      let first_weekday := weekdayMon0 ⟨digitsValL year.data, 1, 1⟩
      let julian : Int :=
        if w = 0 then 1 - first_weekday
        else 1 + ((7 - first_weekday) % 7 : Nat) + 7 * ((w : Int) - 1)
      let ordinal : Int := toOrdinal ⟨digitsValL year.data, 1, 1⟩ + julian - 1
      if 1 ≤ ordinal ∧ ordinal ≤ 3652059 then
        .ok (dateFromYearDoy (digitsValL year.data) julian)
      else .error "ValueError: ordinal must be in range"
    else .error "ValueError: time data does not match format"
  else .error "ValueError: time data does not match format"

/-- Embeds `__format_two_parts_date(split_date)` (identical in ecb.py, insee.py and
oecd.py): fixed suffix table, else the `%W` week branch when the tail
contains `W`, else last-day-of-month via `calendar.monthrange`. -/
def format_two_parts_date (year date_tail : String) : Except String Date :=
  match lookupStr date_tail dateSuffixes with
  | some sfx => pyParseDate (year ++ sfx)
  | none =>
    if strContains date_tail 'W' then
      strptimeYWw year date_tail
    else
      match pyInt? year, pyInt? date_tail with
      | some y, some m =>
        if 1 ≤ m ∧ m ≤ 12 then
          pyParseDate (year ++ "-" ++ date_tail ++ "-" ++ toString (daysInMonth y m))
        else .error "calendar.IllegalMonthError"
      | _, _ => .error "ValueError: invalid literal for int"

/-- Embeds `__convert_ecb_time_format_to_datetime(time_string)` (identical in
ecb.py, insee.py and oecd.py): dispatch on the number of dash segments. -/
def convert_ecb_time_format_to_datetime (time_string : String) : Except String Date :=
  match pySplit '-' time_string with
  | [_] => pyParseDate (time_string ++ "-12-31")
  | [y, t] => format_two_parts_date y t
  | _ => pyParseDate time_string

/-! ## ISO-8601 week dates (specification-side definitions)

These formalise the spec's phrase "the Monday of that ISO week in that
year": ISO week 1 of a year is the week containing January 4, weeks start
on Monday.  They are comparison definitions for the claims, not part of
the source embedding. -/

/-- Ordinal of the Monday of ISO week 1 of year `y`. -/
def isoWeek1MondayOrd (y : Nat) : Nat := toOrdinal ⟨y, 1, 4⟩ - weekdayMon0 ⟨y, 1, 4⟩

/-- The Monday of ISO week `n` of year `y` (spec-side definition). -/
def isoWeekMonday (y n : Nat) : Date :=
  dateFromYearDoy y ((4 : Int) - weekdayMon0 ⟨y, 1, 4⟩ + 7 * ((n : Int) - 1))

/-- ISO week-numbering year of a date (spec-side definition). -/
def isoWeekYear (d : Date) : Nat :=
  if isoWeek1MondayOrd (d.year + 1) ≤ toOrdinal d then d.year + 1
  else if toOrdinal d < isoWeek1MondayOrd d.year then d.year - 1
  else d.year

/-- ISO week number of a date (spec-side definition). -/
def isoWeekNumber (d : Date) : Nat :=
  (toOrdinal d - isoWeek1MondayOrd (isoWeekYear d)) / 7 + 1

/-! ## xml.etree.ElementTree model -/

mutual
/-- An ElementTree element: tag (with the `{namespace}` prefix spelled out,
as the sources compare it), attributes in document order (Python dicts
preserve insertion order), text, children. -/
inductive XElem where
  | mk (tag : String) (attrib : List (String × String)) (text : Option String)
       (children : XChildren)
inductive XChildren where
  | nil
  | cons (head : XElem) (tail : XChildren)
end

def XChildren.ofList : List XElem → XChildren
  | [] => .nil
  | x :: xs => .cons x (XChildren.ofList xs)

def XChildren.toList : XChildren → List XElem
  | .nil => []
  | .cons h t => h :: t.toList

/-- Element constructor used for the concrete test documents. -/
def xe (tag : String) (attrib : List (String × String)) (children : List XElem) : XElem :=
  .mk tag attrib none (.ofList children)

def XElem.tag : XElem → String
  | .mk t _ _ _ => t

def XElem.attrib : XElem → List (String × String)
  | .mk _ a _ _ => a

/-- Embeds `list(element)`: the direct children. -/
def XElem.childList : XElem → List XElem
  | .mk _ _ _ cs => cs.toList

mutual
/-- Every element of the subtree in end-tag order, the order in which
`ET.iterparse` (default `end` events) yields elements. -/
def XElem.postorder : XElem → List XElem
  | .mk t a x cs => cs.postorderAll ++ [.mk t a x cs]
def XChildren.postorderAll : XChildren → List XElem
  | .nil => []
  | .cons h t => h.postorder ++ t.postorderAll
end

mutual
/-- Proper descendants in document (pre-)order, the order in which
`element.findall(".//tag")` scans the subtree. -/
def XElem.descendants : XElem → List XElem
  | .mk _ _ _ cs => cs.descAll
def XChildren.descAll : XChildren → List XElem
  | .nil => []
  | .cons h t => (h :: h.descendants) ++ t.descAll
end

/-- Embeds `element.findall(".//" + t)`. -/
def XElem.findallDesc (el : XElem) (t : String) : List XElem :=
  el.descendants.filter fun e => e.tag == t

/-- Embeds `element.find(".//" + t)`: first matching descendant or `None`. -/
def XElem.findDesc (el : XElem) (t : String) : Option XElem :=
  (el.findallDesc t).head?

/-- Embeds `element.attrib[k]`: raises `KeyError` when absent. -/
def XElem.attribGet (el : XElem) (k : String) : Except String String :=
  match lookupStr k el.attrib with
  | some v => .ok v
  | none => .error ("KeyError: '" ++ k ++ "'")

/-- Embeds `list(element.attrib.keys())`. -/
def XElem.attribKeys (el : XElem) : List String := el.attrib.map Prod.fst

/-- Embeds `list(element.attrib.values())`. -/
def XElem.attribVals (el : XElem) : List String := el.attrib.map Prod.snd

/-- Embeds `list(find_result)` where the find may have returned `None`, in which
case Python raises a `TypeError`. -/
def expectElem : Option XElem → Except String XElem
  | some e => .ok e
  | none => .error "TypeError: 'NoneType' object is not iterable"

/-! ## Minimal pandas model -/

/-- A cell of a DataFrame as the sources produce them: a string, a
`datetime`, Python `None`, or a list of strings (the ECB `ObsAttributes`
column). -/
inductive PdValue where
  | s (v : String)
  | date (d : Date)
  | pyNone
  | strList (l : List String)
deriving DecidableEq, Repr

/-- A DataFrame: optional named index plus named columns over rows. -/
structure DataFrame where
  indexName : Option String
  indexVals : List PdValue
  columns : List String
  rows : List (List PdValue)
deriving DecidableEq, Repr

/-- Embeds `pd.DataFrame()`: no columns, no rows. -/
def emptyDf : DataFrame := ⟨none, [], [], []⟩

/-- Embeds `df.set_index(c)`: moves column `c` to the index; raises `KeyError`
when there is no such column (in particular on a freshly constructed
column-less `pd.DataFrame()`). -/
def setIndexE (df : DataFrame) (c : String) : Except String DataFrame :=
  match df.columns.findIdx? (fun x => x == c) with
  | some p =>
    .ok ⟨some c, df.rows.map (fun r => r.getD p .pyNone),
         df.columns.eraseIdx p, df.rows.map (fun r => r.eraseIdx p)⟩
  | none => .error ("KeyError: '" ++ c ++ "'")

/-- Embeds `a.append(b)` for the appends the sources perform: every reachable
append is either onto the fresh empty frame or between frames sharing the
same fixed column list, where pandas concatenates the rows. -/
def dfAppend (a b : DataFrame) : DataFrame :=
  if a.columns = [] && a.rows = [] then b
  else ⟨a.indexName, a.indexVals, a.columns, a.rows ++ b.rows⟩

/-- Embeds `df[c].apply(convert)` as insee.py calls it: raises `KeyError` when the
column is absent, converts every cell of the column (conversion errors
propagate), and returns the converted series — which insee.py then
discards. -/
def applyColumnConvert (df : DataFrame) (c : String) : Except String (List Date) :=
  match df.columns.findIdx? (fun x => x == c) with
  | none => .error ("KeyError: '" ++ c ++ "'")
  | some p =>
    df.rows.mapM fun r =>
      match r.getD p .pyNone with
      | .s v => convert_ecb_time_format_to_datetime v
      | _ => .error "TypeError: expected string cell"

/-- Sort key used by `sort_index` on the string-indexed OECD frame. -/
def pdKeyStr : PdValue → String
  | .s v => v
  | _ => ""

/-- Stable insertion used to model `df.sort_index()`; it agrees with pandas
on the frames compared by the claims. -/
def insertRow (x : PdValue × List PdValue) :
    List (PdValue × List PdValue) → List (PdValue × List PdValue)
  | [] => [x]
  | y :: ys => if pdKeyStr x.1 < pdKeyStr y.1 then x :: y :: ys else y :: insertRow x ys

/-- Embeds `df.sort_index()`. -/
def sortIndexDf (df : DataFrame) : DataFrame :=
  let sorted := (df.indexVals.zip df.rows).foldl (fun acc x => insertRow x acc) []
  ⟨df.indexName, sorted.map Prod.fst, df.columns, sorted.map Prod.snd⟩

/-- Wrap an optional date cell (`None` when no `ObsDimension` was seen). -/
def optDateCell : Option Date → PdValue
  | some d => .date d
  | none => .pyNone

/-- Wrap an optional string cell (`None` when no `ObsValue` was seen). -/
def optStrCell : Option String → PdValue
  | some v => .s v
  | none => .pyNone

/-! ## datashelf.py: the static endpoint/option registries -/

/-- A value of the nested static configuration dicts. -/
inductive ShelfVal where
  | str (v : String)
  | dict (entries : List (String × ShelfVal))

/-- Dict indexing `d[k]` on a shelf level: raises `KeyError` when absent. -/
def dictGet (entries : List (String × ShelfVal)) (k : String) : Except String ShelfVal :=
  match entries with
  | [] => .error ("KeyError: '" ++ k ++ "'")
  | (a, b) :: rest => if k = a then .ok b else dictGet rest k

/-- Indexing into a shelf value: strings cannot be indexed by a string. -/
def svIndex (v : ShelfVal) (k : String) : Except String ShelfVal :=
  match v with
  | .dict d => dictGet d k
  | .str _ => .error "TypeError: string indices must be integers"

/-- Read a string leaf (every leaf interpolated into a URL is a string). -/
def svStr (v : ShelfVal) : Except String String :=
  match v with
  | .str s => .ok s
  | .dict _ => .error "TypeError: expected string value"

/-- Embeds `shelf[k]` read as a string. -/
def shelfStr (shelf : List (String × ShelfVal)) (k : String) : Except String String := do
  svStr (← dictGet shelf k)

/-- The `inputs` sub-dict of a shelf as plain string pairs (`[]` when the
shelf has no `inputs` key — every shelf the clients pass here has one). -/
def shelfInputs (shelf : List (String × ShelfVal)) : List (String × String) :=
  match dictGet shelf "inputs" with
  | .ok (.dict d) =>
    d.filterMap fun kv => match kv.2 with | .str s => some (kv.1, s) | _ => none
  | _ => []

namespace DataShelf

/-- Embeds `datashelf.ECB`. -/
def ECB : List (String × ShelfVal) :=
  [("endpoint", .dict
      [("protocol", .str "https://"),
       ("wsEntryPoint", .str "sdw-wsrest.ecb.europa.eu/service/"),
       ("resource", .str "data/"),
       ("datastructure", .str "datastructure/"),
       ("dataflow", .str "dataflow/"),
       ("codelist", .str "codelist/")]),
   ("inputs", .dict
      [("start_period", .str "startPeriod={}"),
       ("end_period", .str "endPeriod={}"),
       ("last_n_observations", .str "lastNObservations={}"),
       ("first_n_observations", .str "firstNObservations={}"),
       ("detail", .str "detail={}"),
       ("updated_after", .str "updatedAfter={}"),
       ("include_history", .str "includeHistory={}")])]

/-- Embeds `datashelf.IMF`. -/
def IMF : List (String × ShelfVal) :=
  [("data_flow_list", .str "https://registry.sdmx.org/ws/public/sdmxapi/rest/dataflow/")]

/-- Embeds `datashelf.OECD`. -/
def OECD : List (String × ShelfVal) :=
  [("data_flow_list", .str "https://stats.oecd.org/restsdmx/sdmx.ashx/GetDataStructure/ALL"),
   ("data", .str "http://stats.oecd.org/restsdmx/sdmx.ashx/GetData/"),
   ("code_list", .str "http://stats.oecd.org/restsdmx/sdmx.ashx/GetSchema/"),
   ("inputs", .dict
      [("start_period", .str "startPeriod={}"),
       ("end_period", .str "endPeriod={}")])]

/-- Embeds `datashelf.INSEE`. -/
def INSEE : List (String × ShelfVal) :=
  [("data_flow_list", .str "https://bdm.insee.fr/series/sdmx/dataflow/FR1"),
   ("data", .str "https://bdm.insee.fr/series/sdmx/data/{}"),
   ("code_list", .str "https://bdm.insee.fr/series/sdmx/codelist/"),
   ("code_list_data_flow", .str "https://bdm.insee.fr/series/sdmx/datastructure/FR1/{}"),
   ("inputs", .dict
      [("start_period", .str "startPeriod={}"),
       ("end_period", .str "endPeriod={}"),
       ("last_n_observations", .str "lastNObservations={}"),
       ("first_n_observations", .str "firstNObservations={}"),
       ("updated_after", .str "updatedAfter={}"),
       ("include_history", .str "includeHistory={}")])]

end DataShelf

/-! ## Parameter builder (lines 64-65 of sources/ecb.py and the equivalent
lines of sources/insee.py and sources/oecd.py) -/

/-- Embeds `validated_inputs = [i for i in list(kwargs.keys()) if registry.get(i)]`
followed by
`"&".join([registry.get(i).format(kwargs[i]) for i in validated_inputs])`.
Note the Python guard is the truthiness of `registry.get(i)`, not key
membership. -/
def buildQuery (kwargs registry : List (String × String)) : String :=
  let validated_inputs := (kwargs.map Prod.fst).filter fun i => truthyOpt (lookupStr i registry)
  joinSep "&" (validated_inputs.map fun i =>
    pyFormat1 ((lookupStr i registry).getD "") ((lookupStr i kwargs).getD ""))

/-- Modelled from the spec's words for C9 as stated: "for each key in
`options` that also exists in `registry`, substitute the value into that
key's template; join with `&` preserving the iteration order of
`options`". -/
def buildQuery_claimSpec (options registry : List (String × String)) : String :=
  joinSep "&" ((options.filter fun kv => (lookupStr kv.1 registry).isSome).map fun kv =>
    pyFormat1 ((lookupStr kv.1 registry).getD "") kv.2)

/-- The amended specification: only option keys whose registry template is
a non-empty string survive. -/
def buildQuery_amendedSpec (options registry : List (String × String)) : String :=
  joinSep "&" ((options.filter fun kv => truthyOpt (lookupStr kv.1 registry)).map fun kv =>
    pyFormat1 ((lookupStr kv.1 registry).getD "") kv.2)

/-! ## Shared client outcome types -/

/-- Outcome of a `__retrieve_data` call: the validation `ValueError`
carrying `list(self.__data_flows.index)`, a `KeyError` while building the
URL, or the GET request issued against the data endpoint. -/
inductive RetrieveOutcome where
  | validationError (legal : List String)
  | keyError (key : String)
  | request (url : String)
deriving DecidableEq, Repr

/-- The data-endpoint fetches a retrieve outcome performs. -/
def dataRequests : RetrieveOutcome → List String
  | .request u => [u]
  | _ => []

/-- Whether a retrieve call got past the catalog validation. -/
def proceedsRetrieve : RetrieveOutcome → Bool
  | .validationError _ => false
  | _ => true

/-- Outcome of a `__get_code_list_for_data_flow` call.  When the guard
`data_flow not in list(self.__data_flows.index)` fires, building the error
message itself evaluates the missing `self.__data_flows['DataFlow']`
column, so the call aborts at validation (with a `KeyError` instead of the
intended `ValueError`). -/
inductive CodeListOutcome where
  | abortedAtValidation
  | keyError (key : String)
  | request (url : String)
deriving DecidableEq, Repr

/-- Whether a code-list call got past the catalog validation. -/
def proceedsCodeList : CodeListOutcome → Bool
  | .abortedAtValidation => false
  | _ => true

/-! ## sources/ecb.py -/

namespace SourcesECB

/-- The data shelf the ECB client stores: `__init__` executes
`self.__data_shelf = DataShelf().oecd()` (sources/ecb.py line 21). -/
def data_shelf : List (String × ShelfVal) := DataShelf.OECD

/-- The `data_flows_url` f-string of `__refresh_data_flow_list`, the first
expression evaluated during construction. -/
def data_flows_url (shelf : List (String × ShelfVal)) : Except String String := do
  let proto ← svStr (← svIndex (← dictGet shelf "endpoint") "protocol")
  let entry ← svStr (← svIndex (← dictGet shelf "endpoint") "wsEntryPoint")
  let flow ← svStr (← svIndex (← dictGet shelf "endpoint") "dataflow")
  .ok (proto ++ entry ++ flow ++ "ECB")

/-- What `ECB().__init__` manages to do before any network call: build the
data-flow-list URL from its stored shelf. -/
def init_catalog_url : Except String String := data_flows_url data_shelf

/-- The data URL f-string of `__retrieve_data` (evaluated only after
validation succeeded). -/
def data_url (shelf : List (String × ShelfVal)) (data_flow formatted_inputs : String) :
    Except String String := do
  let proto ← svStr (← svIndex (← dictGet shelf "endpoint") "protocol")
  let entry ← svStr (← svIndex (← dictGet shelf "endpoint") "wsEntryPoint")
  let res ← svStr (← svIndex (← dictGet shelf "endpoint") "resource")
  .ok (proto ++ entry ++ res ++ data_flow ++ "?" ++ formatted_inputs)

/-- Embeds `__retrieve_data(data_flow, **kwargs)` up to the data fetch: format the
validated inputs, check `data_flow.upper()` against
`list(self.__data_flows.index)`, raise the `ValueError` listing the index
on failure, else build and issue the data request.  The method never
writes `self.__data_flows`, so the catalog is returned unchanged. -/
def retrieve_data (data_flows_index : List String) (data_flow : String)
    (kwargs : List (String × String)) : List String × RetrieveOutcome :=
  let formatted_inputs := buildQuery kwargs (shelfInputs data_shelf)
  if pyUpper data_flow ∈ data_flows_index then
    (data_flows_index,
      match data_url data_shelf data_flow formatted_inputs with
      | .ok u => .request u
      | .error k => .keyError k)
  else (data_flows_index, .validationError data_flows_index)

def nsGen : String := "{http://www.sdmx.org/resources/sdmxml/schemas/v2_1/data/generic}"
def tagSeries : String := nsGen ++ "Series"
def tagSeriesKey : String := nsGen ++ "SeriesKey"
def tagAttributes : String := nsGen ++ "Attributes"
def tagObs : String := nsGen ++ "Obs"
def tagObsDimension : String := nsGen ++ "ObsDimension"
def tagObsValue : String := nsGen ++ "ObsValue"
def tagDataSet : String := "{http://www.sdmx.org/resources/sdmxml/schemas/v2_1/message}DataSet"

def columns : List String :=
  ["seriesId", "seriesAttributes", "ObsTime", "ObsValue", "ObsAttributes", "Action",
   "ValidFromDate"]

/-- The inner loop of `__extract_data_from_tags` over one `Obs` element:
fold over its children updating (dimension, value, obs_attributes). -/
def obsChildStep (st : Option Date × Option String × List String) (child_obs : XElem) :
    Except String (Option Date × Option String × List String) :=
  if child_obs.tag == tagObsDimension then do
    let v ← child_obs.attribGet "value"
    let d ← convert_ecb_time_format_to_datetime v
    .ok (some d, st.2.1, st.2.2)
  else if child_obs.tag == tagObsValue then do
    let v ← child_obs.attribGet "value"
    .ok (st.1, some v, st.2.2)
  else if child_obs.tag == tagAttributes then
    match child_obs.childList with
    | [] => .ok st
    | c :: _ => do
      let i ← c.attribGet "id"
      let v ← c.attribGet "value"
      .ok (st.1, st.2.1, st.2.2 ++ [i, v])
  else .ok st

/-- Embeds `__extract_data_from_tags(dataset)` (sources/ecb.py lines 80-115). -/
def extract_data_from_tags (dataset : XElem) : Except String DataFrame := do
  let action ← dataset.attribGet "action"
  let valid_from_date ← dataset.attribGet "validFromDate"
  let list_of_series := dataset.findallDesc tagSeries
  let rowsNested ← list_of_series.mapM fun sub_series => do
    let series_key ← expectElem (sub_series.findDesc tagSeriesKey)
    let attributes_key ← expectElem (sub_series.findDesc tagAttributes)
    let obs := sub_series.childList.filter fun e => e.tag == tagObs
    let skVals ← series_key.childList.mapM fun t => t.attribGet "value"
    let series_id := joinSep "." skVals
    let akVals ← attributes_key.childList.mapM fun t => t.attribGet "value"
    let series_attributes := joinSep "," akVals
    obs.mapM fun observation => do
      let st ← observation.childList.foldlM obsChildStep
        ((none : Option Date), (none : Option String), ([] : List String))
      .ok [PdValue.s series_id, PdValue.s series_attributes, optDateCell st.1,
           optStrCell st.2.1, PdValue.strList st.2.2, PdValue.s action,
           PdValue.s valid_from_date]
  .ok ⟨none, [], columns, rowsNested.flatten⟩

/-- The extraction phase of `__retrieve_data` (lines 73-78): start from
`pd.DataFrame()`, append the extraction of every `DataSet` element in
iterparse order, then `set_index("seriesId")`. -/
def retrieve_extract_phase (doc : XElem) : Except String DataFrame := do
  let datasets := doc.postorder.filter fun e => e.tag == tagDataSet
  let dfs ← datasets.mapM extract_data_from_tags
  let results := dfs.foldl dfAppend emptyDf
  setIndexE results "seriesId"

/-- The code-list URL f-string of `__get_code_list_for_data_flow`. -/
def code_list_url (shelf : List (String × ShelfVal)) (data_structure : String) :
    Except String String := do
  let proto ← svStr (← svIndex (← dictGet shelf "endpoint") "protocol")
  let entry ← svStr (← svIndex (← dictGet shelf "endpoint") "wsEntryPoint")
  let ds ← svStr (← svIndex (← dictGet shelf "endpoint") "datastructure")
  .ok (proto ++ entry ++ ds ++ "ECB/" ++ data_structure ++ "?references=children")

/-- Embeds `__get_code_list_for_data_flow(data_flow)` (lines 194-207): the guard
compares `data_flow` itself (no `.upper()`) against the catalog index. -/
def get_code_list_for_data_flow (data_flows : List (String × String)) (data_flow : String) :
    CodeListOutcome :=
  if data_flow ∈ data_flows.map Prod.fst then
    let data_structure := (lookupStr data_flow data_flows).getD ""
    match code_list_url data_shelf data_structure with
    | .ok u => .request u
    | .error k => .keyError k
  else .abortedAtValidation

end SourcesECB

/-! ## sources/insee.py -/

namespace SourcesINSEE

def tagDataSet : String := "{http://www.sdmx.org/resources/sdmxml/schemas/v2_1/message}DataSet"

/-- Accumulator of the `__extract_data_from_tags` loop: the `output` rows
and the latest values of `series_columns` / `obs_columns`. -/
structure ScanAcc where
  output : List (List String)
  series_columns : Option (List String)
  obs_columns : Option (List String)
deriving DecidableEq, Repr

/-- One `obs` iteration: set `obs_columns`/`obs_data` from the attributes
and append a row only when `obs_data` is non-empty. -/
def obsStep (series_data : List String) (acc : ScanAcc) (obs : XElem) : ScanAcc :=
  ⟨acc.output ++ (if obs.attribVals.isEmpty then [] else [series_data ++ obs.attribVals]),
   acc.series_columns, some obs.attribKeys⟩

/-- One `series` iteration: set `series_columns`/`series_data`, then walk
the observations. -/
def seriesStep (acc : ScanAcc) (series : XElem) : ScanAcc :=
  series.childList.foldl (obsStep series.attribVals)
    ⟨acc.output, some series.attribKeys, acc.obs_columns⟩

/-- One iterparse element: only `DataSet` elements are processed. -/
def elemStep (acc : ScanAcc) (element : XElem) : ScanAcc :=
  if element.tag == tagDataSet then element.childList.foldl seriesStep acc else acc

/-- The whole iterparse loop of `__extract_data_from_tags`
(sources/insee.py lines 87-99). -/
def scan (file_content : XElem) : ScanAcc :=
  file_content.postorder.foldl elemStep ⟨[], none, none⟩

/-- Embeds `__extract_data_from_tags(file_content)` (lines 80-102): build the
DataFrame from the final `series_columns + obs_columns` (a `TypeError`
when either is still `None`), `set_index("IDBANK")`, then apply the period
conversion to `TIME_PERIOD` — whose result line 101 discards. -/
def extract_data_from_tags (file_content : XElem) : Except String DataFrame := do
  let st := scan file_content
  match st.series_columns, st.obs_columns with
  | some sc, some oc =>
    if st.output.all fun r => r.length == (sc ++ oc).length then do
      let results ← setIndexE ⟨none, [], sc ++ oc, st.output.map fun r => r.map PdValue.s⟩
        "IDBANK"
      let _ ← applyColumnConvert results "TIME_PERIOD"
      .ok results
    else .error "ValueError: columns passed, data had different length"
  | _, _ => .error "TypeError: unsupported operand type(s) for +: 'NoneType' and 'NoneType'"

/-- Embeds `__retrieve_data(data_flow, kwargs=None)` up to the data fetch
(sources/insee.py lines 56-76); `kwargs` defaults to `None` and an empty
dict is equally falsy. -/
def retrieve_data (data_flows_index : List String) (data_flow : String)
    (kwargs : Option (List (String × String))) : List String × RetrieveOutcome :=
  let formatted_inputs :=
    match kwargs with
    | some kw => if kw.isEmpty then "" else buildQuery kw (shelfInputs DataShelf.INSEE)
    | none => ""
  if pyUpper data_flow ∈ data_flows_index then
    (data_flows_index,
      match shelfStr DataShelf.INSEE "data" with
      | .ok tpl =>
        let base := pyFormat1 tpl data_flow
        .request (if formatted_inputs.isEmpty then base else base ++ "?" ++ formatted_inputs)
      | .error k => .keyError k)
  else (data_flows_index, .validationError data_flows_index)

end SourcesINSEE

/-! ## sources/oecd.py -/

namespace SourcesOECD

def tagSeries : String := "{http://oecd.stat.org/Data}Series"

/-- Embeds `__extract_data_from_tags(file_content)` (sources/oecd.py lines
75-92): for every `Series` element in iterparse order, the series id is
the dot-concatenation of its attribute values; every child contributes the
raw `TIME` attribute and the period-converted `OBS_VALUE` attribute. -/
def extract_data_from_tags (file_content : XElem) : Except String DataFrame := do
  let seriesEls := file_content.postorder.filter fun e => e.tag == tagSeries
  let rowsNested ← seriesEls.mapM fun element => do
    let series_id := joinSep "." element.attribVals
    element.childList.mapM fun obs => do
      let obs_time ← obs.attribGet "TIME"
      let raw ← obs.attribGet "OBS_VALUE"
      let obs_value ← convert_ecb_time_format_to_datetime raw
      .ok [PdValue.s series_id, PdValue.s obs_time, PdValue.date obs_value]
  let df ← setIndexE ⟨none, [], ["SeriesID", "ObsTime", "ObsValue"], rowsNested.flatten⟩
    "SeriesID"
  .ok (sortIndexDf df)

/-- Embeds `__retrieve_data(data_flow, kwargs=None)` up to the data fetch
(sources/oecd.py lines 51-71); the OECD `data` template has no
placeholder, so `format` returns it unchanged. -/
def retrieve_data (data_flows_index : List String) (data_flow : String)
    (kwargs : Option (List (String × String))) : List String × RetrieveOutcome :=
  let formatted_inputs :=
    match kwargs with
    | some kw => if kw.isEmpty then "" else buildQuery kw (shelfInputs DataShelf.OECD)
    | none => ""
  if pyUpper data_flow ∈ data_flows_index then
    (data_flows_index,
      match shelfStr DataShelf.OECD "data" with
      | .ok tpl =>
        let base := pyFormat1 tpl data_flow
        .request (if formatted_inputs.isEmpty then base else base ++ "?" ++ formatted_inputs)
      | .error k => .keyError k)
  else (data_flows_index, .validationError data_flows_index)

/-- Embeds `__get_code_list_for_data_flow(data_flow)` (sources/oecd.py lines
135-146): the guard compares `data_flow` itself (no `.upper()`). -/
def get_code_list_for_data_flow (data_flows_index : List String) (data_flow : String) :
    CodeListOutcome :=
  if data_flow ∈ data_flows_index then
    match shelfStr DataShelf.OECD "code_list" with
    | .ok base => .request (base ++ data_flow)
    | .error k => .keyError k
  else .abortedAtValidation

end SourcesOECD

/-! ## Specification-side helpers for the INSEE extractor claims -/

/-- Last element of a list (self-contained spec-side helper). -/
def lastOpt : List α → Option α
  | [] => none
  | [a] => some a
  | _ :: b :: t => lastOpt (b :: t)

/-- The series elements the INSEE loop visits, in order: the children of
every `DataSet` element of the iterparse stream. -/
def inseeSeriesList (l : List XElem) : List XElem :=
  (l.filter fun e => e.tag == SourcesINSEE.tagDataSet).flatMap XElem.childList

/-- The observation elements the INSEE loop visits, in order. -/
def inseeObsList (l : List XElem) : List XElem :=
  (inseeSeriesList l).flatMap XElem.childList

/-- The rows the INSEE loop should accumulate: one row per series/obs pair
whose observation carries at least one attribute. -/
def inseeRowsSpec (l : List XElem) : List (List String) :=
  (inseeSeriesList l).flatMap fun s =>
    ((s.childList.filter fun o => !o.attribVals.isEmpty).map fun o =>
      s.attribVals ++ o.attribVals)

/-- The column list the INSEE extractor actually feeds `pd.DataFrame`
(before `set_index`), when both halves were assigned. -/
def inseeResultColumns (doc : XElem) : Option (List String) :=
  match (SourcesINSEE.scan doc).series_columns, (SourcesINSEE.scan doc).obs_columns with
  | some sc, some oc => some (sc ++ oc)
  | _, _ => none

/-- Modelled from the spec's words for C8 as stated: the column set derived
from the *first* series and *first* observation encountered. -/
def inseeFirstColumns (doc : XElem) : Option (List String) :=
  match (inseeSeriesList doc.postorder).head?, (inseeObsList doc.postorder).head? with
  | some s, some o => some (s.attribKeys ++ o.attribKeys)
  | _, _ => none

/-! ## Concrete documents used by the claims -/

/-- ECB generic 2.1 document: one `DataSet`, one series, one observation. -/
def ecbDocC1 : XElem :=
  xe "root" []
    [xe SourcesECB.tagDataSet [("action", "Replace"), ("validFromDate", "2021-01-01")]
      [xe SourcesECB.tagSeries []
        [xe SourcesECB.tagSeriesKey []
          [xe "Value" [("id", "FREQ"), ("value", "M")] []],
         xe SourcesECB.tagAttributes []
          [xe "Value" [("id", "UNIT"), ("value", "EUR")] []],
         xe SourcesECB.tagObs []
          [xe SourcesECB.tagObsDimension [("value", "2020-Q1")] [],
           xe SourcesECB.tagObsValue [("value", "98.6")] [],
           xe SourcesECB.tagAttributes []
            [xe "Value" [("id", "OBS_STATUS"), ("value", "A")] []]]]]]

/-- OECD legacy 2.0 document: one series, one observation with
`TIME="2020-Q1"` and `OBS_VALUE="1999"`. -/
def oecdDocC1 : XElem :=
  xe "root" []
    [xe SourcesOECD.tagSeries [("LOCATION", "FR"), ("SUBJECT", "GDP")]
      [xe "Obs" [("TIME", "2020-Q1"), ("OBS_VALUE", "1999")] []]]

/-- INSEE flat-attribute document: one series, one observation. -/
def inseeDocC1 : XElem :=
  xe "root" []
    [xe SourcesINSEE.tagDataSet []
      [xe "Series" [("IDBANK", "001"), ("FREQ", "A")]
        [xe "Obs" [("TIME_PERIOD", "2020-Q1"), ("OBS_VALUE", "5")] []]]]

/-- A document without any recognised container tag. -/
def bareDocC5a : XElem := xe "notadataset" [] [xe "alsonot" [] []]

/-- A second copy for the INSEE branch of C5. -/
def bareDocC5b : XElem := xe "stillnot" [] []

/-- A third copy for the OECD branch of C5. -/
def bareDocC5c : XElem := xe "nothinghere" [] [xe "inner" [("a", "b")] []]

/-- INSEE document whose two series carry different attribute keys: the
first series has key `A`, the second key `B`. -/
def inseeDocC8 : XElem :=
  xe "root" []
    [xe SourcesINSEE.tagDataSet []
      [xe "Series" [("IDBANK", "001"), ("A", "x")]
        [xe "Obs" [("TIME_PERIOD", "2020"), ("OBS_VALUE", "1")] []],
       xe "Series" [("IDBANK", "002"), ("B", "y")]
        [xe "Obs" [("TIME_PERIOD", "2020"), ("OBS_VALUE", "2")] []]]]

/-! ## General lemmas: Python split, digits, lookup -/

theorem stringMk_data (s : String) : String.mk s.data = s := rfl

theorem data_append (s t : String) : (s ++ t).data = s.data ++ t.data := rfl

theorem str_eq_of_data (s t : String) (h : s.data = t.data) : s = t := by
  cases s; cases t; exact congrArg String.mk h

theorem pySplitAux_ne_nil (sep : Char) (l acc : List Char) : pySplitAux sep l acc ≠ [] := by
  induction l generalizing acc with
  | nil => simp [pySplitAux]
  | cons c t ih =>
    simp only [pySplitAux]
    split
    · simp
    · exact ih _

theorem pySplitAux_no_sep (sep : Char) (l acc : List Char) (h : ∀ c ∈ l, c ≠ sep) :
    pySplitAux sep l acc = [acc.reverse ++ l] := by
  induction l generalizing acc with
  | nil => simp [pySplitAux]
  | cons c t ih =>
    have hc : c ≠ sep := h c (by simp)
    simp only [pySplitAux, if_neg hc]
    rw [ih (c :: acc) fun x hx => h x (by simp [hx])]
    simp

theorem pySplitAux_sep_split (sep : Char) (l₁ l₂ acc : List Char) (h : ∀ c ∈ l₁, c ≠ sep) :
    pySplitAux sep (l₁ ++ sep :: l₂) acc = (acc.reverse ++ l₁) :: pySplitAux sep l₂ [] := by
  induction l₁ generalizing acc with
  | nil => simp [pySplitAux]
  | cons c t ih =>
    have hc : c ≠ sep := h c (by simp)
    simp only [List.cons_append, pySplitAux, if_neg hc, List.append_eq]
    rw [ih (c :: acc) fun x hx => h x (by simp [hx])]
    simp

theorem pySplit_no_sep (sep : Char) (s : String) (h : ∀ c ∈ s.data, c ≠ sep) :
    pySplit sep s = [s] := by
  unfold pySplit
  rw [pySplitAux_no_sep sep s.data [] h]
  simp [stringMk_data]

theorem pySplit_of_shape (sep : Char) (s a : String) (rest : List Char)
    (hs : s.data = a.data ++ sep :: rest) (ha : ∀ c ∈ a.data, c ≠ sep) :
    pySplit sep s = a :: pySplit sep ⟨rest⟩ := by
  unfold pySplit
  rw [hs, pySplitAux_sep_split sep a.data rest [] ha]
  simp [stringMk_data]

theorem pySplitAux_single (sep : Char) (l : List Char) :
    ∀ acc r, pySplitAux sep l acc = [r] → r = acc.reverse ++ l ∧ ∀ c ∈ l, c ≠ sep := by
  induction l with
  | nil =>
    intro acc r h
    simp only [pySplitAux, List.cons.injEq] at h
    simp [← h.1]
  | cons c t ih =>
    intro acc r h
    simp only [pySplitAux] at h
    by_cases hc : c = sep
    · rw [if_pos hc] at h
      cases heq : pySplitAux sep t [] with
      | nil => exact absurd heq (pySplitAux_ne_nil sep t [])
      | cons x xs => rw [heq] at h; simp at h
    · rw [if_neg hc] at h
      obtain ⟨hr, hfree⟩ := ih (c :: acc) r h
      refine ⟨by rw [hr]; simp, ?_⟩
      intro x hx
      rcases List.mem_cons.mp hx with rfl | hx'
      · exact hc
      · exact hfree x hx'

theorem pySplitAux_pair (sep : Char) (l : List Char) :
    ∀ acc r₁ r₂, pySplitAux sep l acc = [r₁, r₂] →
      ∃ l₁ l₂, l = l₁ ++ sep :: l₂ ∧ r₁ = acc.reverse ++ l₁ ∧ (∀ c ∈ l₁, c ≠ sep)
        ∧ r₂ = l₂ ∧ ∀ c ∈ l₂, c ≠ sep := by
  induction l with
  | nil =>
    intro acc r₁ r₂ h
    simp [pySplitAux] at h
  | cons c t ih =>
    intro acc r₁ r₂ h
    simp only [pySplitAux] at h
    by_cases hc : c = sep
    · rw [if_pos hc] at h
      simp only [List.cons.injEq] at h
      obtain ⟨h1, h2⟩ := h
      obtain ⟨hr2, hfree⟩ := pySplitAux_single sep t [] r₂ h2
      exact ⟨[], t, by rw [hc]; rfl, by simp [h1], by simp, by simpa using hr2, hfree⟩
    · rw [if_neg hc] at h
      obtain ⟨l₁, l₂, hl, hr₁, hf₁, hr₂, hf₂⟩ := ih (c :: acc) r₁ r₂ h
      refine ⟨c :: l₁, l₂, by simp [hl], by rw [hr₁]; simp, ?_, hr₂, hf₂⟩
      intro x hx
      rcases List.mem_cons.mp hx with rfl | hx'
      · exact hc
      · exact hf₁ x hx'

theorem pySplit_single (sep : Char) (s t : String) (h : pySplit sep s = [t]) :
    s = t ∧ ∀ c ∈ s.data, c ≠ sep := by
  unfold pySplit at h
  cases heq : pySplitAux sep s.data [] with
  | nil => exact absurd heq (pySplitAux_ne_nil sep s.data [])
  | cons x xs =>
    rw [heq] at h
    simp only [List.map_cons, List.cons.injEq, List.map_eq_nil_iff] at h
    obtain ⟨hx, hxs⟩ := h
    subst hxs
    obtain ⟨hr, hfree⟩ := pySplitAux_single sep s.data [] x heq
    have : s = t := by rw [← hx, hr]; simp [stringMk_data]
    exact ⟨this, hfree⟩

theorem pySplit_pair (sep : Char) (s a b : String) (h : pySplit sep s = [a, b]) :
    s.data = a.data ++ sep :: b.data ∧ (∀ c ∈ a.data, c ≠ sep) ∧ ∀ c ∈ b.data, c ≠ sep := by
  unfold pySplit at h
  cases heq : pySplitAux sep s.data [] with
  | nil => exact absurd heq (pySplitAux_ne_nil sep s.data [])
  | cons x xs =>
    rw [heq] at h
    cases xs with
    | nil => simp at h
    | cons y ys =>
      simp only [List.map_cons, List.cons.injEq, List.map_eq_nil_iff] at h
      obtain ⟨hx, hy, hys⟩ := h
      subst hys
      obtain ⟨l₁, l₂, hl, hr₁, hf₁, hr₂, hf₂⟩ := pySplitAux_pair sep s.data [] x y heq
      have ha : a.data = l₁ := by rw [← hx, hr₁]; rfl
      have hb : b.data = l₂ := by rw [← hy, hr₂]
      rw [ha, hb]
      exact ⟨hl, hf₁, hf₂⟩

theorem ne_of_isDigit {c x : Char} (hc : c.isDigit = true) (hx : x.isDigit = false) : c ≠ x := by
  intro h
  subst h
  rw [hc] at hx
  cases hx

theorem digits_ne_char (l : List Char) (h : isDigitStringL l = true) (x : Char)
    (hx : x.isDigit = false) : ∀ c ∈ l, c ≠ x := by
  intro c hc
  exact ne_of_isDigit (List.all_eq_true.mp h c hc) hx

theorem strContains_eq_false (s : String) (x : Char) (h : ∀ c ∈ s.data, c ≠ x) :
    strContains s x = false := by
  unfold strContains
  rw [List.any_eq_false]
  intro c hc
  simp [h c hc]

theorem strContains_of_head (s : String) (c : Char) (l : List Char) (h : s.data = c :: l) :
    strContains s c = true := by
  unfold strContains
  rw [h]
  simp

theorem lookupStr_dateSuffixes_digits (t : String) (ht : isDigitStringL t.data = true) :
    lookupStr t dateSuffixes = none := by
  have hne : ∀ u : String, isDigitStringL u.data = false → t ≠ u := by
    intro u hu heq
    rw [heq] at ht
    rw [ht] at hu
    cases hu
  simp only [dateSuffixes, lookupStr]
  rw [if_neg (hne "S1" (by decide)), if_neg (hne "S2" (by decide)),
      if_neg (hne "Q1" (by decide)), if_neg (hne "Q2" (by decide)),
      if_neg (hne "Q3" (by decide)), if_neg (hne "Q4" (by decide))]

theorem lookupStr_dateSuffixes_headW (t : String) (l : List Char) (ht : t.data = 'W' :: l) :
    lookupStr t dateSuffixes = none := by
  have hne : ∀ u : String, u.data.head? ≠ some 'W' → t ≠ u := by
    intro u hu heq
    apply hu
    rw [← heq, ht]
    rfl
  simp only [dateSuffixes, lookupStr]
  rw [if_neg (hne "S1" (by decide)), if_neg (hne "S2" (by decide)),
      if_neg (hne "Q1" (by decide)), if_neg (hne "Q2" (by decide)),
      if_neg (hne "Q3" (by decide)), if_neg (hne "Q4" (by decide))]

theorem pyInt?_of_digits (s : String) (n : Nat) (hd : isDigitStringL s.data = true)
    (hne : s.data ≠ []) (hv : digitsValL s.data = n) : pyInt? s = some n := by
  have hie : s.data.isEmpty = false := by
    cases h : s.data with
    | nil => exact absurd h hne
    | cons c t => rfl
  unfold pyInt?
  rw [hie, hd, hv]
  rfl

/-! ## Lemmas on the period normalizer -/

theorem pyParseYMD_ok (ys ms ds : String) (Y M D : Nat)
    (h1 : isDigitStringL ys.data = true) (h2 : ys.length = 4)
    (h3 : isDigitStringL ms.data = true) (h4 : ms.length = 1 ∨ ms.length = 2)
    (h5 : isDigitStringL ds.data = true) (h6 : ds.length = 1 ∨ ds.length = 2)
    (hy : digitsValL ys.data = Y) (hm : digitsValL ms.data = M) (hd : digitsValL ds.data = D)
    (hY : 1 ≤ Y) (hM1 : 1 ≤ M) (hM2 : M ≤ 12) (hD1 : 1 ≤ D) (hD2 : D ≤ daysInMonth Y M) :
    pyParseYMD ys ms ds = .ok ⟨Y, M, D⟩ := by
  have e2 : (ys.length == 4) = true := by rw [h2]; rfl
  have e4 : (ms.length == 1 || ms.length == 2) = true := by
    rcases h4 with h | h <;> simp [h]
  have e6 : (ds.length == 1 || ds.length == 2) = true := by
    rcases h6 with h | h <;> simp [h]
  unfold pyParseYMD
  rw [h1, e2, h3, e4, h5, e6, hy, hm, hd]
  simp only [Bool.and_self, Bool.and_true, Bool.true_and, if_true]
  rw [if_pos ⟨hY, hM1, hM2, hD1, hD2⟩]

theorem pyParseDate_eq_pyParseYMD (s ys ms ds : String) (h : pySplit '-' s = [ys, ms, ds]) :
    pyParseDate s = pyParseYMD ys ms ds := by
  unfold pyParseDate
  rw [h]

theorem pyParseDate_append2 (ys ms ds : String)
    (hys : ∀ c ∈ ys.data, c ≠ '-') (hms : ∀ c ∈ ms.data, c ≠ '-')
    (hds : ∀ c ∈ ds.data, c ≠ '-') :
    pyParseDate (ys ++ "-" ++ ms ++ "-" ++ ds) = pyParseYMD ys ms ds := by
  have hshape1 : (ys ++ "-" ++ ms ++ "-" ++ ds).data
      = ys.data ++ '-' :: (ms.data ++ '-' :: ds.data) := by
    simp [data_append]
  have hshape2 : (String.mk (ms.data ++ '-' :: ds.data)).data = ms.data ++ '-' :: ds.data := rfl
  apply pyParseDate_eq_pyParseYMD
  rw [pySplit_of_shape '-' _ ys (ms.data ++ '-' :: ds.data) hshape1 hys,
      pySplit_of_shape '-' _ ms ds.data hshape2 hms, stringMk_data,
      pySplit_no_sep '-' ds hds]

theorem convert_one_seg (s t : String) (h : pySplit '-' s = [t]) :
    convert_ecb_time_format_to_datetime s = pyParseDate (s ++ "-12-31") := by
  unfold convert_ecb_time_format_to_datetime
  rw [h]

theorem convert_two_seg (s y t : String) (h : pySplit '-' s = [y, t]) :
    convert_ecb_time_format_to_datetime s = format_two_parts_date y t := by
  unfold convert_ecb_time_format_to_datetime
  rw [h]

theorem ftp_suffix (y t sfx : String) (h : lookupStr t dateSuffixes = some sfx) :
    format_two_parts_date y t = pyParseDate (y ++ sfx) := by
  unfold format_two_parts_date
  rw [h]

theorem ftp_week (y t : String) (h1 : lookupStr t dateSuffixes = none)
    (h2 : strContains t 'W' = true) :
    format_two_parts_date y t = strptimeYWw y t := by
  unfold format_two_parts_date
  rw [h1]
  simp [h2]

theorem ftp_month (y t : String) (Y M : Nat) (h1 : lookupStr t dateSuffixes = none)
    (h2 : strContains t 'W' = false) (hy : pyInt? y = some Y) (ht : pyInt? t = some M)
    (hM : 1 ≤ M ∧ M ≤ 12) :
    format_two_parts_date y t
      = pyParseDate (y ++ "-" ++ t ++ "-" ++ toString (daysInMonth Y M)) := by
  unfold format_two_parts_date
  rw [h1]
  simp only [h2, Bool.false_eq_true, if_false]
  rw [hy, ht]
  simp only [if_pos hM]

theorem char_digit_toNat_le {c : Char} (h : c.isDigit = true) : c.toNat ≤ 57 := by
  unfold Char.isDigit at h
  rw [Bool.and_eq_true] at h
  have h2 := h.2
  rw [decide_eq_true_eq] at h2
  exact UInt32.toNat_le_of_le (by norm_num [UInt32.size]) h2

theorem digitsValL_aux (l : List Char) (h : isDigitStringL l = true) (a : Nat) :
    l.foldl (fun a c => 10 * a + (c.toNat - 48)) a < (a + 1) * 10 ^ l.length := by
  induction l generalizing a with
  | nil => simp
  | cons c t ih =>
    have hc : c.toNat - 48 ≤ 9 := by
      have := char_digit_toNat_le (List.all_eq_true.mp h c (by simp))
      omega
    have ht : isDigitStringL t = true := by
      unfold isDigitStringL at h ⊢
      rw [List.all_cons, Bool.and_eq_true] at h
      exact h.2
    rw [List.foldl_cons, List.length_cons]
    calc t.foldl (fun a c => 10 * a + (c.toNat - 48)) (10 * a + (c.toNat - 48))
        < (10 * a + (c.toNat - 48) + 1) * 10 ^ t.length := ih ht _
      _ ≤ ((a + 1) * 10) * 10 ^ t.length :=
          Nat.mul_le_mul_right _ (by omega)
      _ = (a + 1) * 10 ^ (t.length + 1) := by ring

theorem digitsValL_lt (l : List Char) (h : isDigitStringL l = true) :
    digitsValL l < 10 ^ l.length := by
  simpa [digitsValL] using digitsValL_aux l h 0

theorem toOrdinal_date_max : toOrdinal ⟨9999, 12, 31⟩ = 3652059 := by decide

theorem strptimeYWw_ok (ys ws : String) (Y n : Nat)
    (h1 : isDigitStringL ys.data = true) (h2 : ys.length = 4)
    (h3 : isDigitStringL ws.data = true) (h4 : ws.length = 1 ∨ ws.length = 2)
    (h5 : digitsValL ws.data ≤ 53)
    (hy : digitsValL ys.data = Y) (hw : digitsValL ws.data = n) (hY : 1 ≤ Y) (hn : 1 ≤ n)
    (hrange : Y ≤ 9998 ∨ n ≤ 52) :
    strptimeYWw ys ("W" ++ ws)
      = .ok (dateFromYearDoy Y
          (1 + ((7 - weekdayMon0 ⟨Y, 1, 1⟩) % 7 : Nat) + 7 * ((n : Int) - 1))) := by
  have hdata : ("W" ++ ws).data = 'W' :: ws.data := rfl
  have htail : ("W" ++ ws).data.tail = ws.data := by rw [hdata]; rfl
  have hhead : ("W" ++ ws).data.head? = some 'W' := by rw [hdata]; rfl
  have hlen : ws.length = ws.data.length := rfl
  have e2 : (ys.length == 4) = true := by rw [h2]; rfl
  have e4 : (ws.data.length == 1 || ws.data.length == 2) = true := by
    rcases h4 with h | h <;> rw [hlen] at h <;> simp [h]
  have hY9999 : Y ≤ 9999 := by
    have hb := digitsValL_lt ys.data h1
    have hl4 : ys.data.length = 4 := h2
    rw [hl4, hy] at hb
    omega
  unfold strptimeYWw
  rw [htail, hhead, h1, e2, h3, e4]
  simp only [beq_self_eq_true, Bool.and_self, Bool.true_and, Bool.and_true, if_true]
  rw [hy, hw]
  rw [if_pos ⟨hY, hw ▸ h5⟩]
  have hne : ¬ (n = 0) := by omega
  simp only [if_neg hne]
  have hexp : toOrdinal ⟨Y, 1, 1⟩
      = 365 * (Y - 1) + (Y - 1) / 4 - (Y - 1) / 100 + (Y - 1) / 400 + 1 := by
    simp [toOrdinal, daysBeforeMonth, daysBeforeYear]
  split
  · rfl
  · rename_i hcon
    exfalso
    apply hcon
    constructor <;> rw [hexp] <;> omega

theorem weekday_jan4 (Y : Nat) :
    weekdayMon0 ⟨Y, 1, 4⟩ = (weekdayMon0 ⟨Y, 1, 1⟩ + 3) % 7 := by
  unfold weekdayMon0 toOrdinal
  simp only [daysBeforeMonth]
  omega

theorem convert_bare_year (s ys : String) (Y : Nat)
    (hsplit : pySplit '-' s = [ys])
    (hyd : isDigitStringL ys.data = true) (hy4 : ys.length = 4)
    (hYv : digitsValL ys.data = Y) (hY1 : 1 ≤ Y) :
    convert_ecb_time_format_to_datetime s = .ok ⟨Y, 12, 31⟩ := by
  obtain ⟨heq, hfree⟩ := pySplit_single '-' s ys hsplit
  subst heq
  rw [convert_one_seg s s hsplit]
  have : s ++ "-12-31" = s ++ "-" ++ "12" ++ "-" ++ "31" :=
    str_eq_of_data _ _ (by simp [data_append])
  rw [this, pyParseDate_append2 s "12" "31" hfree (by decide) (by decide)]
  exact pyParseYMD_ok s "12" "31" Y 12 31 hyd hy4 (by decide) (by decide)
    (by decide) (by decide) hYv (by decide) (by decide) hY1 (by decide) (by decide)
    (by decide) (le_refl 31)

theorem convert_suffix_case (s ys t ms ds : String) (Y M D : Nat)
    (hsplit : pySplit '-' s = [ys, t])
    (hlook : lookupStr t dateSuffixes = some ("-" ++ ms ++ "-" ++ ds))
    (hyd : isDigitStringL ys.data = true) (hy4 : ys.length = 4)
    (hYv : digitsValL ys.data = Y) (hY1 : 1 ≤ Y)
    (hmd : isDigitStringL ms.data = true) (hml : ms.length = 1 ∨ ms.length = 2)
    (hdd : isDigitStringL ds.data = true) (hdl : ds.length = 1 ∨ ds.length = 2)
    (hMv : digitsValL ms.data = M) (hDv : digitsValL ds.data = D)
    (hM1 : 1 ≤ M) (hM2 : M ≤ 12) (hD1 : 1 ≤ D) (hD2 : D ≤ daysInMonth Y M) :
    convert_ecb_time_format_to_datetime s = .ok ⟨Y, M, D⟩ := by
  obtain ⟨_, hfree, _⟩ := pySplit_pair '-' s ys t hsplit
  rw [convert_two_seg s ys t hsplit, ftp_suffix ys t _ hlook]
  have : ys ++ ("-" ++ ms ++ "-" ++ ds) = ys ++ "-" ++ ms ++ "-" ++ ds :=
    str_eq_of_data _ _ (by simp [data_append])
  rw [this, pyParseDate_append2 ys ms ds hfree
        (digits_ne_char ms.data hmd '-' (by decide))
        (digits_ne_char ds.data hdd '-' (by decide))]
  exact pyParseYMD_ok ys ms ds Y M D hyd hy4 hmd hml hdd hdl hYv hMv hDv hY1 hM1 hM2 hD1 hD2

theorem convert_month_case (s ys t : String) (Y M lastD : Nat)
    (hsplit : pySplit '-' s = [ys, t])
    (hyd : isDigitStringL ys.data = true) (hy4 : ys.length = 4)
    (hYv : digitsValL ys.data = Y) (hY1 : 1 ≤ Y)
    (htd : isDigitStringL t.data = true) (ht2 : t.length = 1 ∨ t.length = 2)
    (hMv : digitsValL t.data = M) (hM1 : 1 ≤ M) (hM12 : M ≤ 12)
    (hld : daysInMonth Y M = lastD)
    (hdd : isDigitStringL (toString lastD).data = true)
    (hdl : (toString lastD).length = 1 ∨ (toString lastD).length = 2)
    (hdv : digitsValL (toString lastD).data = lastD) (hd1 : 1 ≤ lastD) :
    convert_ecb_time_format_to_datetime s = .ok ⟨Y, M, lastD⟩ := by
  obtain ⟨_, hfreeY, hfreeT⟩ := pySplit_pair '-' s ys t hsplit
  have hy_ne : ys.data ≠ [] := by
    intro h
    have : ys.length = 0 := by rw [show ys.length = ys.data.length from rfl, h]; rfl
    omega
  have ht_ne : t.data ≠ [] := by
    intro h
    have : t.length = 0 := by rw [show t.length = t.data.length from rfl, h]; rfl
    omega
  rw [convert_two_seg s ys t hsplit,
      ftp_month ys t Y M (lookupStr_dateSuffixes_digits t htd)
        (strContains_eq_false t 'W' (digits_ne_char t.data htd 'W' (by decide)))
        (pyInt?_of_digits ys Y hyd hy_ne hYv) (pyInt?_of_digits t M htd ht_ne hMv)
        ⟨hM1, hM12⟩,
      hld,
      pyParseDate_append2 ys t (toString lastD) hfreeY
        (digits_ne_char t.data htd '-' (by decide))
        (digits_ne_char (toString lastD).data hdd '-' (by decide))]
  exact pyParseYMD_ok ys t (toString lastD) Y M lastD hyd hy4 htd ht2 hdd hdl hYv hMv hdv
    hY1 hM1 hM12 hd1 (le_of_eq hld.symm)

theorem convert_week_case (s ys ws : String) (Y n : Nat)
    (hsplit : pySplit '-' s = [ys, "W" ++ ws])
    (hyd : isDigitStringL ys.data = true) (hy4 : ys.length = 4)
    (hYv : digitsValL ys.data = Y) (hY1 : 1 ≤ Y)
    (hwd : isDigitStringL ws.data = true) (hwl : ws.length = 1 ∨ ws.length = 2)
    (hwv : digitsValL ws.data = n) (hn53 : n ≤ 53) (hn1 : 1 ≤ n)
    (hrange : Y ≤ 9998 ∨ n ≤ 52) :
    convert_ecb_time_format_to_datetime s
      = .ok (dateFromYearDoy Y
          (1 + ((7 - weekdayMon0 ⟨Y, 1, 1⟩) % 7 : Nat) + 7 * ((n : Int) - 1))) := by
  rw [convert_two_seg s ys ("W" ++ ws) hsplit,
      ftp_week ys ("W" ++ ws) (lookupStr_dateSuffixes_headW _ ws.data rfl)
        (strContains_of_head _ 'W' ws.data rfl)]
  exact strptimeYWw_ok ys ws Y n hyd hy4 hwd hwl (hwv ▸ hn53) hYv hwv hY1 hn1 hrange

/-! ## Lemmas on the INSEE extraction loop -/

theorem lastOpt_isSome (a : α) (l : List α) : (lastOpt (a :: l)).isSome = true := by
  induction l generalizing a with
  | nil => rfl
  | cons b t ih => simpa [lastOpt] using ih b

theorem lastOpt_cons (a : α) (l : List α) :
    lastOpt (a :: l) = match lastOpt l with | none => some a | some b => some b := by
  cases l with
  | nil => rfl
  | cons b t =>
    have h := lastOpt_isSome b t
    cases heq : lastOpt (b :: t) with
    | none => rw [heq] at h; cases h
    | some x => simp only [lastOpt, heq]

theorem lastOpt_append (l₁ l₂ : List α) :
    lastOpt (l₁ ++ l₂)
      = match lastOpt l₂ with | none => lastOpt l₁ | some b => some b := by
  induction l₁ with
  | nil =>
    simp only [List.nil_append]
    cases h : lastOpt l₂ <;> rfl
  | cons a t ih =>
    rw [List.cons_append, lastOpt_cons, ih, lastOpt_cons]
    cases h2 : lastOpt l₂ <;> cases h1 : lastOpt t <;> rfl

namespace SourcesINSEE

theorem obs_foldl (sv : List String) (l : List XElem) (acc : ScanAcc) :
    l.foldl (obsStep sv) acc =
      ⟨acc.output ++ ((l.filter fun o => !o.attribVals.isEmpty).map
          fun o => sv ++ o.attribVals),
       acc.series_columns,
       match lastOpt l with | none => acc.obs_columns | some o => some o.attribKeys⟩ := by
  induction l generalizing acc with
  | nil => simp [lastOpt]
  | cons o t ih =>
    rw [List.foldl_cons, ih, lastOpt_cons]
    unfold obsStep
    simp only [ScanAcc.mk.injEq]
    refine ⟨?_, trivial, ?_⟩
    · rw [List.filter_cons]
      by_cases he : o.attribVals.isEmpty
      · simp [he]
      · simp [he, List.append_assoc]
    · cases h : lastOpt t <;> rfl

theorem series_foldl (l : List XElem) (acc : ScanAcc) :
    l.foldl seriesStep acc =
      ⟨acc.output ++ (l.flatMap fun s =>
          ((s.childList.filter fun o => !o.attribVals.isEmpty).map
            fun o => s.attribVals ++ o.attribVals)),
       match lastOpt l with | none => acc.series_columns | some s => some s.attribKeys,
       match lastOpt (l.flatMap XElem.childList) with
       | none => acc.obs_columns | some o => some o.attribKeys⟩ := by
  induction l generalizing acc with
  | nil => simp [lastOpt]
  | cons s t ih =>
    rw [List.foldl_cons, show seriesStep acc s
          = s.childList.foldl (obsStep s.attribVals)
            ⟨acc.output, some s.attribKeys, acc.obs_columns⟩ from rfl,
        obs_foldl, ih]
    simp only [List.flatMap_cons]
    rw [lastOpt_cons, lastOpt_append]
    simp only [ScanAcc.mk.injEq]
    refine ⟨by simp [List.append_assoc], ?_, ?_⟩
    · cases h : lastOpt t <;> rfl
    · cases h1 : lastOpt (t.flatMap XElem.childList) <;>
        cases h2 : lastOpt s.childList <;> rfl

theorem elems_foldl (l : List XElem) (acc : ScanAcc) :
    l.foldl elemStep acc =
      ⟨acc.output ++ inseeRowsSpec l,
       match lastOpt (inseeSeriesList l) with
       | none => acc.series_columns | some s => some s.attribKeys,
       match lastOpt (inseeObsList l) with
       | none => acc.obs_columns | some o => some o.attribKeys⟩ := by
  induction l generalizing acc with
  | nil => simp [inseeRowsSpec, inseeSeriesList, inseeObsList, lastOpt]
  | cons e t ih =>
    rw [List.foldl_cons]
    by_cases he : (e.tag == tagDataSet) = true
    · have hs : inseeSeriesList (e :: t) = e.childList ++ inseeSeriesList t := by
        unfold inseeSeriesList
        rw [List.filter_cons, if_pos he, List.flatMap_cons]
      have hr : inseeRowsSpec (e :: t)
          = (e.childList.flatMap fun s =>
              ((s.childList.filter fun o => !o.attribVals.isEmpty).map
                fun o => s.attribVals ++ o.attribVals)) ++ inseeRowsSpec t := by
        unfold inseeRowsSpec
        rw [hs, List.flatMap_append]
      have ho : inseeObsList (e :: t)
          = e.childList.flatMap XElem.childList ++ inseeObsList t := by
        unfold inseeObsList
        rw [hs, List.flatMap_append]
      rw [show elemStep acc e = e.childList.foldl seriesStep acc by
            unfold elemStep; rw [if_pos he],
          series_foldl, ih, hr, hs, ho, lastOpt_append, lastOpt_append]
      simp only [ScanAcc.mk.injEq]
      refine ⟨by simp [List.append_assoc], ?_, ?_⟩
      · cases h1 : lastOpt (inseeSeriesList t) <;> cases h2 : lastOpt e.childList <;> rfl
      · cases h1 : lastOpt (inseeObsList t) <;>
          cases h2 : lastOpt (e.childList.flatMap XElem.childList) <;> rfl
    · have he' : (e.tag == tagDataSet) = false := by
        cases h : (e.tag == tagDataSet)
        · rfl
        · exact absurd h he
      have hs : inseeSeriesList (e :: t) = inseeSeriesList t := by
        unfold inseeSeriesList
        rw [List.filter_cons, if_neg (by rw [he']; exact Bool.false_ne_true)]
      have hr : inseeRowsSpec (e :: t) = inseeRowsSpec t := by
        unfold inseeRowsSpec
        rw [hs]
      have ho : inseeObsList (e :: t) = inseeObsList t := by
        unfold inseeObsList
        rw [hs]
      rw [show elemStep acc e = acc by unfold elemStep; rw [if_neg he], ih, hr, hs, ho]

end SourcesINSEE

/-! ## Lemmas on the parameter builder -/

theorem lookupStr_of_mem_nodup (k v : String) (l : List (String × String))
    (hmem : (k, v) ∈ l) (hnd : (l.map Prod.fst).Nodup) : lookupStr k l = some v := by
  induction l with
  | nil => cases hmem
  | cons p t ih =>
    simp only [List.map_cons, List.nodup_cons] at hnd
    rcases List.mem_cons.mp hmem with heq | hmem'
    · rw [← heq]
      simp [lookupStr]
    · have hk : k ≠ p.1 := by
        intro h
        apply hnd.1
        rw [← h]
        exact List.mem_map_of_mem Prod.fst hmem'
      simp only [lookupStr, if_neg hk]
      exact ih hmem' hnd.2

theorem buildQuery_eq_amendedSpec (options registry : List (String × String))
    (hnd : (options.map Prod.fst).Nodup) :
    buildQuery options registry = buildQuery_amendedSpec options registry := by
  have hlist : ((options.map Prod.fst).filter fun i => truthyOpt (lookupStr i registry)).map
        (fun i => pyFormat1 ((lookupStr i registry).getD "") ((lookupStr i options).getD ""))
      = (options.filter fun kv => truthyOpt (lookupStr kv.1 registry)).map
        (fun kv => pyFormat1 ((lookupStr kv.1 registry).getD "") kv.2) := by
    rw [show (fun kv : String × String => truthyOpt (lookupStr kv.1 registry))
          = (fun i => truthyOpt (lookupStr i registry)) ∘ Prod.fst from rfl,
        List.filter_map, List.map_map]
    apply List.map_congr_left
    intro kv hkv
    have hmem : kv ∈ options := List.mem_of_mem_filter hkv
    have : lookupStr kv.1 options = some kv.2 :=
      lookupStr_of_mem_nodup kv.1 kv.2 options
        (by rw [show (kv.1, kv.2) = kv from rfl]; exact hmem) hnd
    simp [this]
  exact congrArg (joinSep "&") hlist

theorem buildQuery_empty_of_no_match (options registry : List (String × String))
    (h : ∀ kv ∈ options, truthyOpt (lookupStr kv.1 registry) = false) :
    buildQuery options registry = "" := by
  have hnil : (options.map Prod.fst).filter (fun i => truthyOpt (lookupStr i registry)) = [] := by
    apply List.filter_eq_nil_iff.mpr
    intro k hk
    obtain ⟨kv, hkv, rfl⟩ := List.mem_map.mp hk
    simp [h kv hkv]
  have : ((options.map Prod.fst).filter fun i => truthyOpt (lookupStr i registry)).map
        (fun i => pyFormat1 ((lookupStr i registry).getD "") ((lookupStr i options).getD ""))
      = [] := by rw [hnil]; rfl
  exact congrArg (joinSep "&") this

/-! ## Helper facts about the concrete shelves -/

theorem ecb_data_url_shelf (df fmt : String) :
    SourcesECB.data_url SourcesECB.data_shelf df fmt = .error "KeyError: 'endpoint'" := rfl

theorem ecb_code_list_url_shelf (ds : String) :
    SourcesECB.code_list_url SourcesECB.data_shelf ds = .error "KeyError: 'endpoint'" := rfl

theorem insee_shelf_data :
    shelfStr DataShelf.INSEE "data" = .ok "https://bdm.insee.fr/series/sdmx/data/{}" := rfl

theorem oecd_shelf_data :
    shelfStr DataShelf.OECD "data"
      = .ok "http://stats.oecd.org/restsdmx/sdmx.ashx/GetData/" := rfl

theorem oecd_shelf_code_list :
    shelfStr DataShelf.OECD "code_list"
      = .ok "http://stats.oecd.org/restsdmx/sdmx.ashx/GetSchema/" := rfl

/-! ## Claim theorems -/

/-- C1: the claim states that every extractor variant writes
`NormalizedDate(period)` into the observation-time field and the raw value
attribute into the observation-value field.  Evaluating the embedded
extractors at the failing inputs shows the OECD extractor stores the raw
`TIME` string as `ObsTime` and applies the period normaliser to
`OBS_VALUE` instead, and the INSEE extractor keeps the raw `TIME_PERIOD`
string (line 101 discards the `.apply` result); only the ECB generic
extractor behaves as claimed. -/
theorem c1_extractor_time_value_eval :
    SourcesOECD.extract_data_from_tags oecdDocC1
      = .ok ⟨some "SeriesID", [.s "FR.GDP"], ["ObsTime", "ObsValue"],
          [[.s "2020-Q1", .date ⟨1999, 12, 31⟩]]⟩
  ∧ convert_ecb_time_format_to_datetime "2020-Q1" = .ok ⟨2020, 3, 31⟩
  ∧ SourcesINSEE.extract_data_from_tags inseeDocC1
      = .ok ⟨some "IDBANK", [.s "001"], ["FREQ", "TIME_PERIOD", "OBS_VALUE"],
          [[.s "A", .s "2020-Q1", .s "5"]]⟩
  ∧ SourcesECB.retrieve_extract_phase ecbDocC1
      = .ok ⟨some "seriesId", [.s "M"],
          ["seriesAttributes", "ObsTime", "ObsValue", "ObsAttributes", "Action",
           "ValidFromDate"],
          [[.s "EUR", .date ⟨2020, 3, 31⟩, .s "98.6", .strList ["OBS_STATUS", "A"],
            .s "Replace", .s "2021-01-01"]]⟩ := by decide

/-- C2: the claim states that the ECB client is constructed from the ECB
endpoint registry entry and completes by populating the catalog.  The
source stores `DataShelf().oecd()` instead, and the OECD mapping has no
`endpoint` key, so the very first f-string of the catalog refresh raises
`KeyError: 'endpoint'`; the URL the claim describes is only produced from
the (unused) ECB registry entry. -/
theorem c2_ecb_client_registry :
    SourcesECB.data_shelf = DataShelf.OECD
  ∧ SourcesECB.init_catalog_url = .error "KeyError: 'endpoint'"
  ∧ SourcesECB.data_flows_url DataShelf.ECB
      = .ok "https://sdw-wsrest.ecb.europa.eu/service/dataflow/ECB" :=
  ⟨rfl, by decide, by decide⟩

/-- C3: for an identifier whose upper-cased form is not a key of the
catalog, `__retrieve_data` (ECB and INSEE variants) raises the validation
error carrying exactly `list(self.__data_flows.index)`, issues no request
against the data endpoint, and returns the catalog unchanged. -/
theorem c3_invalid_identifier (ecb_index insee_index : List String) (data_flow : String)
    (kwargs : List (String × String)) (kwargs2 : Option (List (String × String)))
    (hecb : pyUpper data_flow ∉ ecb_index) (hinsee : pyUpper data_flow ∉ insee_index) :
    SourcesECB.retrieve_data ecb_index data_flow kwargs
        = (ecb_index, .validationError ecb_index)
  ∧ dataRequests (SourcesECB.retrieve_data ecb_index data_flow kwargs).2 = []
  ∧ SourcesINSEE.retrieve_data insee_index data_flow kwargs2
        = (insee_index, .validationError insee_index)
  ∧ dataRequests (SourcesINSEE.retrieve_data insee_index data_flow kwargs2).2 = [] := by
  have h1 : SourcesECB.retrieve_data ecb_index data_flow kwargs
      = (ecb_index, .validationError ecb_index) := by
    simp only [SourcesECB.retrieve_data, if_neg hecb]
  have h2 : SourcesINSEE.retrieve_data insee_index data_flow kwargs2
      = (insee_index, .validationError insee_index) := by
    simp only [SourcesINSEE.retrieve_data, if_neg hinsee]
  refine ⟨h1, ?_, h2, ?_⟩
  · rw [h1]
    rfl
  · rw [h2]
    rfl

/-- Witness for C3 at a concrete catalog and identifier. -/
theorem c3_invalid_identifier_witness :
    SourcesECB.retrieve_data ["EXR"] "NOTREAL" []
        = (["EXR"], .validationError ["EXR"])
  ∧ dataRequests (SourcesECB.retrieve_data ["EXR"] "NOTREAL" []).2 = []
  ∧ SourcesINSEE.retrieve_data ["CNA-2014-PIB"] "NOTREAL" none
        = (["CNA-2014-PIB"], .validationError ["CNA-2014-PIB"])
  ∧ dataRequests (SourcesINSEE.retrieve_data ["CNA-2014-PIB"] "NOTREAL" none).2 = [] :=
  c3_invalid_identifier ["EXR"] ["CNA-2014-PIB"] "NOTREAL" [] none (by decide) (by decide)

/-- C4 counterexample: the claim states `normalize("Y-Wn")` is the Monday
of ISO week n of year Y for every year and week; for 2020-W01 the code
(strptime `%W`) yields 2020-01-06 while the Monday of ISO week 1 of 2020
is 2019-12-30. -/
theorem c4_counterexample :
    convert_ecb_time_format_to_datetime "2020-W01" ≠ .ok (isoWeekMonday 2020 1)
  ∧ convert_ecb_time_format_to_datetime "2020-W01" = .ok ⟨2020, 1, 6⟩
  ∧ isoWeekMonday 2020 1 = ⟨2019, 12, 30⟩ := by decide

/-- C4 amended: for a year whose January 1 falls on Monday, Friday,
Saturday or Sunday (so ISO week 1 starts inside the year) and any week
number 1 ≤ n ≤ 53 whose resulting date stays within `datetime.date`'s
range (Y ≤ 9998 or n ≤ 52 — only 9999-W53 overflows, and there strptime
raises `ValueError`, as the last conjunct shows), `normalize("Y-Wn")` is
the Monday of ISO week n of year Y; in particular `normalize("2021-W01")`
is 2021-01-04, the Monday of ISO week 1 of 2021, whose ISO week number
re-derives to 1. -/
theorem c4_amended_week_normalizer (s ys ws : String) (Y n : Nat)
    (hsplit : pySplit '-' s = [ys, "W" ++ ws])
    (hyd : isDigitStringL ys.data = true) (hy4 : ys.length = 4)
    (hYv : digitsValL ys.data = Y) (hY1 : 1 ≤ Y)
    (hwd : isDigitStringL ws.data = true) (hwl : ws.length = 1 ∨ ws.length = 2)
    (hwv : digitsValL ws.data = n) (hn1 : 1 ≤ n) (hn53 : n ≤ 53)
    (hrange : Y ≤ 9998 ∨ n ≤ 52)
    (hdow : weekdayMon0 ⟨Y, 1, 1⟩ = 0 ∨ weekdayMon0 ⟨Y, 1, 1⟩ = 4
      ∨ weekdayMon0 ⟨Y, 1, 1⟩ = 5 ∨ weekdayMon0 ⟨Y, 1, 1⟩ = 6) :
    convert_ecb_time_format_to_datetime s = .ok (isoWeekMonday Y n)
  ∧ convert_ecb_time_format_to_datetime "2021-W01" = .ok ⟨2021, 1, 4⟩
  ∧ isoWeekMonday 2021 1 = ⟨2021, 1, 4⟩
  ∧ isoWeekNumber ⟨2021, 1, 4⟩ = 1
  ∧ convert_ecb_time_format_to_datetime "9999-W53"
      = .error "ValueError: ordinal must be in range" := by
  refine ⟨?_, by decide, by decide, by decide, by decide⟩
  rw [convert_week_case s ys ws Y n hsplit hyd hy4 hYv hY1 hwd hwl hwv hn53 hn1 hrange]
  unfold isoWeekMonday
  rw [weekday_jan4]
  congr 2
  obtain h | h | h | h := hdow <;> simp only [h] <;> omega

/-- Witness for C4 amended at 2021-W01. -/
theorem c4_amended_week_normalizer_witness :
    convert_ecb_time_format_to_datetime "2021-W01" = .ok (isoWeekMonday 2021 1)
  ∧ convert_ecb_time_format_to_datetime "2021-W01" = .ok ⟨2021, 1, 4⟩
  ∧ isoWeekMonday 2021 1 = ⟨2021, 1, 4⟩
  ∧ isoWeekNumber ⟨2021, 1, 4⟩ = 1
  ∧ convert_ecb_time_format_to_datetime "9999-W53"
      = .error "ValueError: ordinal must be in range" :=
  c4_amended_week_normalizer "2021-W01" "2021" "01" 2021 1 (by decide) (by decide)
    (by decide) (by decide) (by decide) (by decide) (by decide) (by decide) (by decide)
    (by decide) (by decide) (by decide)

/-- C5: the claim states that every extractor returns an empty table on a
document lacking any recognised container tag.  Evaluating the embeddings
shows the ECB path raises `KeyError` (`set_index` on the column-less
`pd.DataFrame()`), the INSEE path raises `TypeError` (`None + None` for
the column lists), and only the OECD extractor returns an empty frame. -/
theorem c5_empty_document_behaviour :
    SourcesECB.retrieve_extract_phase bareDocC5a = .error "KeyError: 'seriesId'"
  ∧ SourcesINSEE.extract_data_from_tags bareDocC5b
      = .error "TypeError: unsupported operand type(s) for +: 'NoneType' and 'NoneType'"
  ∧ SourcesOECD.extract_data_from_tags bareDocC5c
      = .ok ⟨some "SeriesID", [], ["ObsTime", "ObsValue"], []⟩ := by decide

/-- C6: the period normaliser maps a bare 4-digit year to its December 31;
a two-segment period with tail S1, S2, Q1, Q2, Q3 or Q4 to the fixed dates
06-30, 12-31, 03-31, 06-30, 09-30, 12-31 of that year; and a two-digit
month tail to the last calendar day of that month (`daysInMonth`, which
respects leap years). -/
theorem c6_period_normalizer :
    (∀ (s ys : String) (Y : Nat), pySplit '-' s = [ys] → isDigitStringL ys.data = true →
      ys.length = 4 → digitsValL ys.data = Y → 1 ≤ Y →
      convert_ecb_time_format_to_datetime s = .ok ⟨Y, 12, 31⟩)
  ∧ (∀ (s ys t : String) (Y M D : Nat), pySplit '-' s = [ys, t] →
      isDigitStringL ys.data = true → ys.length = 4 → digitsValL ys.data = Y → 1 ≤ Y →
      (t, M, D) ∈ ([("S1", 6, 30), ("S2", 12, 31), ("Q1", 3, 31), ("Q2", 6, 30),
        ("Q3", 9, 30), ("Q4", 12, 31)] : List (String × Nat × Nat)) →
      convert_ecb_time_format_to_datetime s = .ok ⟨Y, M, D⟩)
  ∧ (∀ (s ys t : String) (Y M : Nat), pySplit '-' s = [ys, t] →
      isDigitStringL ys.data = true → ys.length = 4 → digitsValL ys.data = Y → 1 ≤ Y →
      isDigitStringL t.data = true → t.length = 2 → digitsValL t.data = M → 1 ≤ M → M ≤ 12 →
      convert_ecb_time_format_to_datetime s = .ok ⟨Y, M, daysInMonth Y M⟩) := by
  refine ⟨?_, ?_, ?_⟩
  · intro s ys Y hsplit h1 h2 h3 h4
    exact convert_bare_year s ys Y hsplit h1 h2 h3 h4
  · intro s ys t Y M D hsplit h1 h2 h3 h4 hmem
    simp only [List.mem_cons, List.not_mem_nil, or_false, Prod.mk.injEq] at hmem
    rcases hmem with h | h | h | h | h | h <;> obtain ⟨rfl, rfl, rfl⟩ := h
    · exact convert_suffix_case s ys "S1" "06" "30" Y 6 30 hsplit (by decide) h1 h2 h3 h4
        (by decide) (by decide) (by decide) (by decide) (by decide) (by decide)
        (by decide) (by decide) (by decide) (le_refl 30)
    · exact convert_suffix_case s ys "S2" "12" "31" Y 12 31 hsplit (by decide) h1 h2 h3 h4
        (by decide) (by decide) (by decide) (by decide) (by decide) (by decide)
        (by decide) (by decide) (by decide) (le_refl 31)
    · exact convert_suffix_case s ys "Q1" "03" "31" Y 3 31 hsplit (by decide) h1 h2 h3 h4
        (by decide) (by decide) (by decide) (by decide) (by decide) (by decide)
        (by decide) (by decide) (by decide) (le_refl 31)
    · exact convert_suffix_case s ys "Q2" "06" "30" Y 6 30 hsplit (by decide) h1 h2 h3 h4
        (by decide) (by decide) (by decide) (by decide) (by decide) (by decide)
        (by decide) (by decide) (by decide) (le_refl 30)
    · exact convert_suffix_case s ys "Q3" "09" "30" Y 9 30 hsplit (by decide) h1 h2 h3 h4
        (by decide) (by decide) (by decide) (by decide) (by decide) (by decide)
        (by decide) (by decide) (by decide) (le_refl 30)
    · exact convert_suffix_case s ys "Q4" "12" "31" Y 12 31 hsplit (by decide) h1 h2 h3 h4
        (by decide) (by decide) (by decide) (by decide) (by decide) (by decide)
        (by decide) (by decide) (by decide) (le_refl 31)
  · intro s ys t Y M hsplit h1 h2 h3 h4 htd ht2 hMv hM1 hM2
    have ht2' : t.length = 1 ∨ t.length = 2 := Or.inr ht2
    interval_cases M
    · exact convert_month_case s ys t Y 1 31 hsplit h1 h2 h3 h4 htd ht2' hMv
        (by decide) (by decide) rfl (by decide) (by decide) (by decide) (by decide)
    · by_cases hl : isLeap Y
      · rw [show daysInMonth Y 2 = 29 by simp [daysInMonth, hl]]
        exact convert_month_case s ys t Y 2 29 hsplit h1 h2 h3 h4 htd ht2' hMv
          (by decide) (by decide) (by simp [daysInMonth, hl]) (by decide) (by decide)
          (by decide) (by decide)
      · rw [show daysInMonth Y 2 = 28 by simp [daysInMonth, hl]]
        exact convert_month_case s ys t Y 2 28 hsplit h1 h2 h3 h4 htd ht2' hMv
          (by decide) (by decide) (by simp [daysInMonth, hl]) (by decide) (by decide)
          (by decide) (by decide)
    · exact convert_month_case s ys t Y 3 31 hsplit h1 h2 h3 h4 htd ht2' hMv
        (by decide) (by decide) rfl (by decide) (by decide) (by decide) (by decide)
    · exact convert_month_case s ys t Y 4 30 hsplit h1 h2 h3 h4 htd ht2' hMv
        (by decide) (by decide) rfl (by decide) (by decide) (by decide) (by decide)
    · exact convert_month_case s ys t Y 5 31 hsplit h1 h2 h3 h4 htd ht2' hMv
        (by decide) (by decide) rfl (by decide) (by decide) (by decide) (by decide)
    · exact convert_month_case s ys t Y 6 30 hsplit h1 h2 h3 h4 htd ht2' hMv
        (by decide) (by decide) rfl (by decide) (by decide) (by decide) (by decide)
    · exact convert_month_case s ys t Y 7 31 hsplit h1 h2 h3 h4 htd ht2' hMv
        (by decide) (by decide) rfl (by decide) (by decide) (by decide) (by decide)
    · exact convert_month_case s ys t Y 8 31 hsplit h1 h2 h3 h4 htd ht2' hMv
        (by decide) (by decide) rfl (by decide) (by decide) (by decide) (by decide)
    · exact convert_month_case s ys t Y 9 30 hsplit h1 h2 h3 h4 htd ht2' hMv
        (by decide) (by decide) rfl (by decide) (by decide) (by decide) (by decide)
    · exact convert_month_case s ys t Y 10 31 hsplit h1 h2 h3 h4 htd ht2' hMv
        (by decide) (by decide) rfl (by decide) (by decide) (by decide) (by decide)
    · exact convert_month_case s ys t Y 11 30 hsplit h1 h2 h3 h4 htd ht2' hMv
        (by decide) (by decide) rfl (by decide) (by decide) (by decide) (by decide)
    · exact convert_month_case s ys t Y 12 31 hsplit h1 h2 h3 h4 htd ht2' hMv
        (by decide) (by decide) rfl (by decide) (by decide) (by decide) (by decide)

/-- Witness for C6 at the spec's own examples. -/
theorem c6_period_normalizer_witness :
    convert_ecb_time_format_to_datetime "2020" = .ok ⟨2020, 12, 31⟩
  ∧ convert_ecb_time_format_to_datetime "2020-Q1" = .ok ⟨2020, 3, 31⟩
  ∧ convert_ecb_time_format_to_datetime "2020-02" = .ok ⟨2020, 2, 29⟩
  ∧ convert_ecb_time_format_to_datetime "2019-02" = .ok ⟨2019, 2, 28⟩ :=
  ⟨c6_period_normalizer.1 "2020" "2020" 2020 (by decide) (by decide) (by decide)
      (by decide) (by decide),
   c6_period_normalizer.2.1 "2020-Q1" "2020" "Q1" 2020 3 31 (by decide) (by decide)
      (by decide) (by decide) (by decide) (by decide),
   c6_period_normalizer.2.2 "2020-02" "2020" "02" 2020 2 (by decide) (by decide)
      (by decide) (by decide) (by decide) (by decide) (by decide) (by decide)
      (by decide) (by decide),
   c6_period_normalizer.2.2 "2019-02" "2019" "02" 2019 2 (by decide) (by decide)
      (by decide) (by decide) (by decide) (by decide) (by decide) (by decide)
      (by decide) (by decide)⟩

/-- C7 counterexample: the claim states that `fetch_code_list` also
validates case-insensitively; with catalog key `EXR`, the upper-cased
identifier `exr` is a key, yet the ECB code-list call aborts at
validation. -/
theorem c7_counterexample :
    pyUpper "exr" ∈ ([("EXR", "ECB_EXR1")] : List (String × String)).map Prod.fst
  ∧ proceedsCodeList
      (SourcesECB.get_code_list_for_data_flow [("EXR", "ECB_EXR1")] "exr") = false := by
  decide

/-- C7 amended: `fetch_data` (ECB and INSEE) proceeds past validation iff
the upper-cased identifier is a key of the catalog, while
`fetch_code_list` (ECB and OECD) proceeds iff the identifier itself,
case-sensitively, is a key. -/
theorem c7_amended_validation (ecb_index insee_index oecd_index : List String)
    (ecb_flows : List (String × String)) (data_flow : String)
    (kwargs : List (String × String)) (kwargs2 : Option (List (String × String))) :
    (proceedsRetrieve (SourcesECB.retrieve_data ecb_index data_flow kwargs).2 = true
        ↔ pyUpper data_flow ∈ ecb_index)
  ∧ (proceedsRetrieve (SourcesINSEE.retrieve_data insee_index data_flow kwargs2).2 = true
        ↔ pyUpper data_flow ∈ insee_index)
  ∧ (proceedsCodeList (SourcesECB.get_code_list_for_data_flow ecb_flows data_flow) = true
        ↔ data_flow ∈ ecb_flows.map Prod.fst)
  ∧ (proceedsCodeList (SourcesOECD.get_code_list_for_data_flow oecd_index data_flow) = true
        ↔ data_flow ∈ oecd_index) := by
  refine ⟨?_, ?_, ?_, ?_⟩
  · by_cases h : pyUpper data_flow ∈ ecb_index
    · simp only [SourcesECB.retrieve_data, if_pos h, ecb_data_url_shelf]
      simp [proceedsRetrieve, h]
    · simp only [SourcesECB.retrieve_data, if_neg h]
      simp [proceedsRetrieve, h]
  · by_cases h : pyUpper data_flow ∈ insee_index
    · simp only [SourcesINSEE.retrieve_data, if_pos h, insee_shelf_data]
      simp [proceedsRetrieve, h]
    · simp only [SourcesINSEE.retrieve_data, if_neg h]
      simp [proceedsRetrieve, h]
  · by_cases h : data_flow ∈ ecb_flows.map Prod.fst
    · simp only [SourcesECB.get_code_list_for_data_flow, if_pos h, ecb_code_list_url_shelf]
      simp [proceedsCodeList, h]
    · simp only [SourcesECB.get_code_list_for_data_flow, if_neg h]
      simp [proceedsCodeList, h]
  · by_cases h : data_flow ∈ oecd_index
    · simp only [SourcesOECD.get_code_list_for_data_flow, if_pos h, oecd_shelf_code_list]
      simp [proceedsCodeList, h]
    · simp only [SourcesOECD.get_code_list_for_data_flow, if_neg h]
      simp [proceedsCodeList, h]

/-- C8 counterexample: the claim states the column names come from the
first series/observation; on a document whose second series carries the
attribute key `B` instead of `A`, the extractor's column list is the one
of the *last* series, not the first. -/
theorem c8_counterexample : inseeResultColumns inseeDocC8 ≠ inseeFirstColumns inseeDocC8 := by
  decide

/-- C8 amended: the INSEE extractor derives `series_columns` /
`obs_columns` from the XML attributes of the last series element and the
last observation element encountered in the document, and that single
column set labels the whole returned table. -/
theorem c8_amended_last_columns (doc : XElem) :
    (SourcesINSEE.scan doc).series_columns
        = (lastOpt (inseeSeriesList doc.postorder)).map XElem.attribKeys
  ∧ (SourcesINSEE.scan doc).obs_columns
        = (lastOpt (inseeObsList doc.postorder)).map XElem.attribKeys := by
  unfold SourcesINSEE.scan
  rw [SourcesINSEE.elems_foldl]
  refine ⟨?_, ?_⟩
  · cases h : lastOpt (inseeSeriesList doc.postorder) <;> rfl
  · cases h : lastOpt (inseeObsList doc.postorder) <;> rfl

/-- C9 counterexample: the claim quantifies over every registry and states
substitution happens exactly for the option keys present in the registry;
a registry entry holding the empty template is present but falsy, so the
code drops it while the claimed behaviour keeps its (empty) fragment. -/
theorem c9_counterexample :
    buildQuery [("a", "1"), ("b", "2")] [("a", ""), ("b", "p={}")]
      ≠ buildQuery_claimSpec [("a", "1"), ("b", "2")] [("a", ""), ("b", "p={}")] := by
  decide

/-- C9 amended: for options with distinct keys, `buildQuery` substitutes
each option value into its registry template exactly for the option keys
whose registry template is a non-empty string, joining the fragments with
`&` in the iteration order of the options; when no key matches it returns
the empty string. -/
theorem c9_amended_build_query (options registry : List (String × String)) :
    ((options.map Prod.fst).Nodup →
        buildQuery options registry = buildQuery_amendedSpec options registry)
  ∧ ((∀ kv ∈ options, truthyOpt (lookupStr kv.1 registry) = false) →
        buildQuery options registry = "") :=
  ⟨buildQuery_eq_amendedSpec options registry, buildQuery_empty_of_no_match options registry⟩

/-- Witness for C9 amended: the spec's own example drops `bogus` and keeps
the formatted `start_period` fragment, and a no-match call returns "". -/
theorem c9_amended_build_query_witness :
    buildQuery [("start_period", "2020"), ("bogus", "x")] (shelfInputs DataShelf.ECB)
        = buildQuery_amendedSpec [("start_period", "2020"), ("bogus", "x")]
            (shelfInputs DataShelf.ECB)
  ∧ buildQuery_amendedSpec [("start_period", "2020"), ("bogus", "x")]
        (shelfInputs DataShelf.ECB) = "startPeriod=2020"
  ∧ buildQuery [("start_period", "2020")] [] = "" :=
  ⟨(c9_amended_build_query [("start_period", "2020"), ("bogus", "x")]
      (shelfInputs DataShelf.ECB)).1 (by decide),
   by decide,
   (c9_amended_build_query [("start_period", "2020")] []).2 (by decide)⟩

/-- C10: a series/observation pair contributes a row to the INSEE output
exactly when the observation element carries at least one XML attribute
(the row being the series attribute values followed by the observation
attribute values); in particular a series without observations
contributes nothing. -/
theorem c10_insee_row_filter (doc : XElem) :
    (SourcesINSEE.scan doc).output = inseeRowsSpec doc.postorder := by
  unfold SourcesINSEE.scan
  rw [SourcesINSEE.elems_foldl]
  simp

